import Mathlib

/-!
Verification development for the kaia-guardrails focus-process stack manager,
override-usage tracker, and hook orchestrator.

The Python sources are embedded shallowly:

* `src/kaia_guardrails/hooks/implementation/focus_process_manager.py`
  (`FocusProcessManager`): the persisted focus stack is a Lean structure;
  each public operation is a pure function from the persisted state (plus the
  outcomes of the fallible git subprocess calls it makes, supplied as oracle
  arguments) to the new persisted state, a success flag, and the trace of
  VCS operations it attempted.  File I/O (`save_focus_stack`) is modelled as
  always succeeding: the returned stack is the persisted stack.
* `src/kaia_guardrails/hooks/implementation/override_usage_tracker.py`
  (`OverrideUsageTracker.track_override_usage`): the per-category record is a
  structure; the external observations consulted by
  `_check_logical_reset_conditions` (wall-clock elapsed time, focus-stack
  file contents, git branch, log directory) are abstracted into a structure
  of booleans, one per condition, exactly mirroring the helper predicates.
* `src/kaia_guardrails/hooks/orchestrator.py` (`Orchestrator.run_all`): a
  hook is a record of the attributes `run_all` reads; the outcome of calling
  `hook.run(ctx)` (normal return, `HookError`, other exception) is data on
  the hook, so the `try`/`except` dispatch becomes a `match`.

The Python stack list keeps the top of the stack at the END of the list
(`append`/`pop()`/`[-1]`); the embedding keeps the top at the HEAD of the
list, so `append` becomes `cons`, `[-1]` becomes `head`, `pop()` becomes
`tail`, and `[-2]` becomes the element at index 1.
-/

namespace KaiaGuardrails

/-- A git operation attempted by the focus-process manager, in order. -/
inductive VcsEvent where
  | resetHard (commit : String)
  | switchBranch (branch : String)
  | squashMerge (source : String)
  | mergeBranch (source : String)
  | deleteBranch (branch : String)
  | commitAll
  deriving DecidableEq, Repr

/-- One entry of the `commit_history` list of a context
(see `_update_focus_with_commit_metadata`). -/
structure CommitRecord where
  commit_hash : Option String
  tool_name : String
  file_paths : List String
  timestamp : String
  deriving DecidableEq, Repr

/-- One entry of `focus_process_stack`, as built by `push_focus_process`.
Python stores `branch_name` as `None` when no branch isolation was requested;
entries written by `push_focus_process` always carry the key, so
`.get("branch_name", "main")` reads the stored optional value. -/
structure FocusContext where
  focus_id : String
  description : String
  branch_name : Option String
  started_at : String
  parent_focus : Option String
  git_commit_before : Option String
  auto_commit_on_edit : Bool
  commit_history : List CommitRecord
  deriving DecidableEq, Repr

/-- The `circular_dependency_tracker` sub-object of the persisted stack. -/
structure CircularTracker where
  detected : Bool
  dependency_chain : List String
  escape_hatch_triggered : Bool
  escape_reason : Option String
  escape_levels_recorded : Option Nat
  pre_escape_commit : Option String
  deriving DecidableEq, Repr

/-- The `last_escape` audit record written by `trigger_escape_hatch`. -/
structure EscapeRecord where
  reason : String
  escaped_focuses : List String
  escape_levels : Nat
  timestamp : String
  pre_escape_commit : Option String
  deriving DecidableEq, Repr

/-- The persisted focus-process stack file (`focus-process-stack.json`).
The head of `focus_process_stack` is the top of the stack. -/
structure FocusStack where
  current_focus : Option String
  description : String
  focus_process_stack : List FocusContext
  circular : CircularTracker
  last_escape : Option EscapeRecord
  deriving DecidableEq, Repr

/-- `_create_empty_stack`. -/
def create_empty_stack : FocusStack :=
  { current_focus := none
    description := ""
    focus_process_stack := []
    circular :=
      { detected := false
        dependency_chain := []
        escape_hatch_triggered := false
        escape_reason := none
        escape_levels_recorded := none
        pre_escape_commit := none }
    last_escape := none }

/-- `_detect_circular_dependency`: the candidate id already occurs among the
`focus_id`s of the stack entries. -/
def detect_circular_dependency (stack : FocusStack) (new_focus_id : String) : Bool :=
  new_focus_id ∈ stack.focus_process_stack.map (fun p => p.focus_id)

/-- Branch name derived from the focus id inside `push_focus_process`:
`focus/` followed by the id with underscores replaced by dashes
(`focus_id.replace('_', '-')`, expressed as a character map so that it
reduces structurally). -/
def branch_name_for (focus_id : String) : String :=
  "focus/" ++ String.mk (focus_id.data.map (fun c => if c = '_' then '-' else c))

/-- `push_focus_process`.  `git_commit` is the result of
`_get_current_git_commit` and `branch_create_ok` the result of
`_create_git_branch`, both external git calls.  Returns the persisted stack
after the call together with the returned success flag. -/
def push_focus_process (persisted : FocusStack) (focus_id description : String)
    (create_branch auto_commit : Bool) (git_commit : Option String)
    (branch_create_ok : Bool) (now : String) : FocusStack × Bool :=
  if detect_circular_dependency persisted focus_id then
    ({ persisted with
        circular :=
          { persisted.circular with
              detected := true
              dependency_chain := persisted.circular.dependency_chain ++ [focus_id] } },
      false)
  else
    let commit := if create_branch then git_commit else none
    let bn : Option String :=
      if create_branch then some (branch_name_for focus_id) else none
    if create_branch && !branch_create_ok then
      (persisted, false)
    else
      let new_focus : FocusContext :=
        { focus_id := focus_id
          description := description
          branch_name := bn
          started_at := now
          parent_focus := persisted.current_focus
          git_commit_before := commit
          auto_commit_on_edit := auto_commit
          commit_history := [] }
      ({ persisted with
          focus_process_stack := new_focus :: persisted.focus_process_stack
          current_focus := some focus_id
          description := description },
        true)

/-- Target branch chosen by `_complete_focus_with_merge`: it reloads the
persisted (still pre-pop) stack; with more than one entry the parent is the
element at index 1 (Python `[-2]`) and its stored `branch_name` is used
(possibly `None`, in which case the later `git checkout None` raises and the
surrounding `except` turns the completion into a failure); otherwise the
target is `main`. -/
def merge_target_branch (persisted : FocusStack) : Option String :=
  match persisted.focus_process_stack with
  | _ :: parent :: _ => parent.branch_name
  | _ => some "main"

/-- `_complete_focus_with_merge`.  `switch_ok` is the outcome of
`_switch_git_branch target`, `merge_ok` the outcome of the chosen merge
subprocess.  Returns the returned flag and the trace of attempted VCS
operations (the failure of `_auto_commit_changes` and of
`_delete_merged_branch` is ignored by the source, so they need no oracle). -/
def complete_focus_with_merge (persisted : FocusStack) (focus : FocusContext)
    (merge_strategy : String) (switch_ok merge_ok : Bool) :
    Bool × List VcsEvent :=
  match focus.branch_name with
  | none => (true, [])
  | some focus_branch =>
    let pre : List VcsEvent :=
      if focus.auto_commit_on_edit then [VcsEvent.commitAll] else []
    match merge_target_branch persisted with
    | none => (false, pre)
    | some target_branch =>
      if !switch_ok then (false, pre ++ [VcsEvent.switchBranch target_branch])
      else
        let merge_ev : Option VcsEvent :=
          if merge_strategy = "squash" then some (VcsEvent.squashMerge focus_branch)
          else if merge_strategy = "merge" then some (VcsEvent.mergeBranch focus_branch)
          else if merge_strategy = "no-merge" then none
          else -- auto strategy: squash for small focuses, merge for complex ones
            if focus.commit_history.length ≤ 3 then
              some (VcsEvent.squashMerge focus_branch)
            else
              some (VcsEvent.mergeBranch focus_branch)
        match merge_ev with
        | none =>
          (true, pre ++ [VcsEvent.switchBranch target_branch,
                         VcsEvent.deleteBranch focus_branch])
        | some ev =>
          if merge_ok then
            (true, pre ++ [VcsEvent.switchBranch target_branch, ev,
                           VcsEvent.deleteBranch focus_branch])
          else
            (false, pre ++ [VcsEvent.switchBranch target_branch, ev])

/-- `pop_focus_process`.  On merge failure the popped entry is re-appended to
the in-memory list and `False` is returned before `save_focus_stack` runs, so
the persisted stack is the pre-pop one.  The failure of the parent-branch
switch and of `_periodic_remote_push` is ignored by the source. -/
def pop_focus_process (persisted : FocusStack) (force_escape : Bool)
    (merge_strategy : String) (switch_ok merge_ok : Bool) :
    FocusStack × Bool × List VcsEvent :=
  match persisted.focus_process_stack with
  | [] => (persisted, false, [])
  | current :: rest =>
    let merged :=
      if !force_escape && current.branch_name.isSome then
        complete_focus_with_merge persisted current merge_strategy switch_ok merge_ok
      else (true, [])
    if !merged.1 then (persisted, false, merged.2)
    else
      match rest with
      | parent :: _ =>
        let ev2 : List VcsEvent :=
          if parent.branch_name.isSome && !force_escape then
            [VcsEvent.switchBranch (parent.branch_name.getD "")]
          else []
        ({ persisted with
            focus_process_stack := rest
            current_focus := some parent.focus_id
            description := parent.description },
          true, merged.2 ++ ev2)
      | [] =>
        let ev2 : List VcsEvent :=
          if !force_escape then [VcsEvent.switchBranch "main"] else []
        ({ persisted with
            focus_process_stack := []
            current_focus := none
            description := "" },
          true, merged.2 ++ ev2)

/-- The unwind loop of `trigger_escape_hatch`: removes `n` contexts from the
top, emitting a hard reset to `git_commit_before` for each context that
recorded one.  Returns (remaining stack, escaped contexts in order, trace). -/
def escape_loop : Nat → List FocusContext →
    List FocusContext × List FocusContext × List VcsEvent
  | 0, s => (s, [], [])
  | _ + 1, [] => ([], [], [])
  | n + 1, top :: rest =>
    let ev : List VcsEvent :=
      match top.git_commit_before with
      | some c => [VcsEvent.resetHard c]
      | none => []
    let r := escape_loop n rest
    (r.1, top :: r.2.1, ev ++ r.2.2)

/-- `trigger_escape_hatch`.  `recommendation` is the integer extracted from
the vibelint LLM response (`_get_vibelint_escape_recommendation` returns 1
when the call fails); `pre_commit` is `_get_current_git_commit` at entry. -/
def trigger_escape_hatch (persisted : FocusStack) (reason : String)
    (escape_levels : Int) (use_vibelint_judge : Bool)
    (recommendation : Option Int) (pre_commit : Option String)
    (now : String) : FocusStack × Bool × List VcsEvent :=
  match persisted.focus_process_stack with
  | [] => (persisted, false, [])
  | _ =>
    let lv1 : Int :=
      if use_vibelint_judge && escape_levels = 1 then recommendation.getD 1
      else escape_levels
    let max_levels := persisted.focus_process_stack.length
    let lv2 : Nat := if lv1 ≤ 0 then max_levels else min lv1.toNat max_levels
    let r := escape_loop lv2 persisted.focus_process_stack
    let remaining := r.1
    let escaped := r.2.1
    let evs := r.2.2
    let trk : CircularTracker :=
      { persisted.circular with
          escape_hatch_triggered := true
          escape_reason := some reason
          escape_levels_recorded := some lv2
          pre_escape_commit := pre_commit }
    let audit : EscapeRecord :=
      { reason := reason
        escaped_focuses := escaped.map (fun f => f.focus_id)
        escape_levels := lv2
        timestamp := now
        pre_escape_commit := pre_commit }
    match remaining with
    | top :: _ =>
      let ev2 : List VcsEvent :=
        match top.branch_name with
        | some b => [VcsEvent.switchBranch b]
        | none => []
      ({ persisted with
          focus_process_stack := remaining
          current_focus := some top.focus_id
          description := top.description
          circular := trk
          last_escape := some audit },
        true, evs ++ ev2)
    | [] =>
      ({ persisted with
          focus_process_stack := []
          current_focus := none
          description := ""
          circular := trk
          last_escape := some audit },
        true, evs ++ [VcsEvent.switchBranch "main"])

/-- Invariant of the persisted stack (spec section 3): `current_focus` equals
the id of the top-of-stack entry, or none if the stack is empty. -/
def stack_inv (s : FocusStack) : Prop :=
  s.current_focus = s.focus_process_stack.head?.map (fun c => c.focus_id)

/-! ## Override usage tracker (`override_usage_tracker.py`) -/

/-- One entry of `usage_history`. -/
structure UsageEntry where
  timestamp : String
  hook : String
  usage_number : Nat
  deriving DecidableEq, Repr

/-- One entry of `reset_conditions_met`. -/
structure ResetEvent where
  timestamp : String
  reason : String
  deriving DecidableEq, Repr

/-- The per-category record stored in `override_usage.json`. -/
structure OverrideRecord where
  usage_count : Nat
  first_used : String
  last_used : String
  auto_unset_count : Nat
  usage_history : List UsageEntry
  reset_conditions_met : List ResetEvent
  deriving DecidableEq, Repr

/-- The fresh record initialised by `track_override_usage` for an unseen
override type. -/
def init_override_record (now : String) : OverrideRecord :=
  { usage_count := 0
    first_used := now
    last_used := now
    auto_unset_count := 0
    usage_history := []
    reset_conditions_met := [] }

/-- The external observations consulted by `_check_logical_reset_conditions`,
one boolean per helper, in the order the source checks them:
`timeout24h` is whether `datetime.now() - last_used > timedelta(hours=24)`
(the record always carries `last_used`, so the null guard never fires);
`focus_completed` is `_check_recent_focus_completion` (the focus stack file
records an escape less than 30 minutes old);
`semantic_escape` is `_check_recent_semantic_escape`;
`project_changed` is `_check_significant_project_change` (the current git
branch is `main`);
`error_resolution` is `_check_error_resolution` (the model-output log
directory exists, in which case the source optimistically returns True). -/
structure ResetObs where
  timeout24h : Bool
  focus_completed : Bool
  semantic_escape : Bool
  project_changed : Bool
  error_resolution : Bool
  deriving DecidableEq, Repr

/-- `_check_logical_reset_conditions`: the first matching condition, in the
fixed order of the source, gives the reset reason. -/
def check_logical_reset_conditions (obs : ResetObs) : Option String :=
  if obs.timeout24h then some "24_hour_timeout"
  else if obs.focus_completed then some "focus_process_completed"
  else if obs.semantic_escape then some "semantic_escape_triggered"
  else if obs.project_changed then some "project_state_changed"
  else if obs.error_resolution then some "error_resolution_detected"
  else none

/-- The warning returned when the ceiling forces an auto-unset (the f-string
at the end of `track_override_usage`, quotes and braces elided). -/
def auto_unset_warning (override_type : String) (auto_unset_count : Nat) : String :=
  "\n[OVERRIDE-TRACKER] Auto-unset override flag " ++ override_type ++
  " after 3 uses.\n\nOverride flags are for emergency use only." ++
  " Frequent usage indicates:\n1. A workflow issue that should be addressed\n" ++
  "2. Possible misuse of the override system\n\n" ++
  "To re-enable override: export KAIA_GUARDRAILS_OVERRIDE=" ++ override_type ++
  "\nAuto-unset count for " ++ override_type ++ ": " ++
  toString auto_unset_count

/-- The progress message returned below the ceiling. -/
def usage_progress_message (override_type : String) (usage_count : Nat) : String :=
  "[OVERRIDE-TRACKER] Override " ++ override_type ++ " used " ++
  toString usage_count ++ "/3 times. " ++ toString (3 - usage_count) ++
  " uses remaining before auto-unset."

/-- Result of one `track_override_usage` call: the record written back for
this category, the returned message, and whether the override environment
variables were deleted (the forced revoke). -/
structure TrackResult where
  record : OverrideRecord
  message : String
  env_cleared : Bool
  deriving DecidableEq, Repr

/-- Python `str.lower()`, expressed as a character map so that it reduces
structurally. -/
def lower (s : String) : String :=
  String.mk (s.data.map Char.toLower)

/-- Whether the bypass signal is active, from the two environment variables
(`KAIA_GUARDRAILS_OVERRIDE`, `KAIA_EMERGENCY_OVERRIDE`), lower-cased as in
the source. -/
def override_active (override_type env_override env_emergency : String) : Bool :=
  (lower env_override = override_type || lower env_override = "all" ||
    lower env_override = "true") ||
  (lower env_emergency = "true" || lower env_emergency = "1" ||
    lower env_emergency = "yes")

/-- `track_override_usage` for one override type.  `existing` is the stored
record for that type (`none` when the type is unseen, triggering
initialisation), `obs` the reset-condition observations, `now` the
`datetime.now().isoformat()` timestamp. -/
def track_override_usage (existing : Option OverrideRecord)
    (override_type hook_name : String) (env_override env_emergency : String)
    (obs : ResetObs) (now : String) : TrackResult :=
  let r0 := existing.getD (init_override_record now)
  -- Check logical reset conditions BEFORE tracking usage
  let r1 :=
    match check_logical_reset_conditions obs with
    | some reason =>
      { r0 with
          usage_count := 0
          first_used := now
          reset_conditions_met :=
            r0.reset_conditions_met ++ [{ timestamp := now, reason := reason }] }
    | none => r0
  if !override_active override_type env_override env_emergency then
    -- Override was manually unset, reset counter
    let r2 :=
      if r1.usage_count > 0 then
        { r1 with
            usage_count := 0
            first_used := now
            reset_conditions_met :=
              r1.reset_conditions_met ++
                [{ timestamp := now, reason := "manual_unset" }] }
      else r1
    { record := r2, message := "", env_cleared := false }
  else
    let count := r1.usage_count + 1
    let hist :=
      r1.usage_history ++ [{ timestamp := now, hook := hook_name, usage_number := count }]
    -- Keep only last 10 usage records
    let hist := if hist.length > 10 then hist.drop (hist.length - 10) else hist
    let r2 :=
      { r1 with usage_count := count, last_used := now, usage_history := hist }
    if count ≥ 3 then
      { record := { r2 with auto_unset_count := r2.auto_unset_count + 1, usage_count := 0 }
        message := auto_unset_warning override_type (r2.auto_unset_count + 1)
        env_cleared := true }
    else
      { record := r2
        message := usage_progress_message override_type count
        env_cleared := false }

/-! ## Hook orchestrator (`orchestrator.py`) -/

/-- Outcome of calling `hook.run(ctx)`: a normal return, a raised
`HookError`, or any other exception. -/
inductive RunOutcome where
  | ok (result : String)
  | hookError (msg : String)
  | crash (msg : String)
  deriving DecidableEq, Repr

/-- The attributes of a discovered hook that `run_all` reads (`d.name`,
`hook.enabled`, `hook.events`) together with what its `run` does on this
context.  A missing `events` attribute (`getattr` default `None`) behaves
exactly like the empty list in the `if hook_events and ...` test, so both
are modelled as `[]`. -/
structure Hook where
  name : String
  enabled : Bool
  events : List String
  run : RunOutcome
  deriving DecidableEq, Repr

/-- Per-hook status recorded into the results dict. -/
inductive HookStatus where
  | ok (result : String)
  | error (msg : String)
  | crash (msg : String)
  | skippedDisabled
  | skippedEvent (ev : String)
  deriving DecidableEq, Repr

/-- The `try`/`except` dispatch of `run_all`: a normal return becomes `ok`,
a `HookError` becomes `error`, any other exception becomes `crash`. -/
def run_outcome_status : RunOutcome → HookStatus
  | RunOutcome.ok r => HookStatus.ok r
  | RunOutcome.hookError m => HookStatus.error m
  | RunOutcome.crash m => HookStatus.crash m

/-- The status `run_all` assigns to one hook given the current event
(`CLAUDE_HOOK_EVENT_NAME`, `""` when unset): the per-iteration body of the
loop, with Python truthiness of `hook_events and current_event and
current_event not in hook_events` made explicit. -/
def hook_status (current_event : String) (h : Hook) : HookStatus :=
  if !h.enabled then HookStatus.skippedDisabled
  else if h.events ≠ [] && current_event ≠ "" &&
      !(h.events.contains current_event) then
    HookStatus.skippedEvent current_event
  else
    run_outcome_status h.run

/-- `Orchestrator.run_all` over the discovered hook list: the per-name
results, in discovery order.  Exceptions are data (`RunOutcome`), so the
`try`/`except` dispatch is total: no hook outcome can abort the loop. -/
def run_all (hooks : List Hook) (current_event : String) :
    List (String × HookStatus) :=
  match hooks with
  | [] => []
  | h :: rest => (h.name, hook_status current_event h) :: run_all rest current_event

/-! ## Concrete fixtures used by witnesses and counterexamples -/

/-- A branch-isolated top-of-stack context. -/
def ctx_top : FocusContext :=
  { focus_id := "b"
    description := "top work"
    branch_name := some "focus/b"
    started_at := "t1"
    parent_focus := some "a"
    git_commit_before := some "c1"
    auto_commit_on_edit := true
    commit_history := [] }

/-- A base context pushed without branch isolation (`create_branch=False`
stores `branch_name = None`). -/
def ctx_base_nobranch : FocusContext :=
  { focus_id := "a"
    description := "base work"
    branch_name := none
    started_at := "t0"
    parent_focus := none
    git_commit_before := none
    auto_commit_on_edit := true
    commit_history := [] }

/-- A branch-isolated base context. -/
def ctx_base_branch : FocusContext :=
  { focus_id := "a"
    description := "base work"
    branch_name := some "focus/a"
    started_at := "t0"
    parent_focus := none
    git_commit_before := some "c0"
    auto_commit_on_edit := true
    commit_history := [] }

/-- Two-entry stack whose second entry has no branch. -/
def stack_two_nobranch : FocusStack :=
  { current_focus := some "b"
    description := "top work"
    focus_process_stack := [ctx_top, ctx_base_nobranch]
    circular := create_empty_stack.circular
    last_escape := none }

/-- Two-entry stack whose entries are both branch-isolated. -/
def stack_two_branch : FocusStack :=
  { current_focus := some "b"
    description := "top work"
    focus_process_stack := [ctx_top, ctx_base_branch]
    circular := create_empty_stack.circular
    last_escape := none }

/-- Reset observations where no logical reset condition holds. -/
def obs_none : ResetObs := ⟨false, false, false, false, false⟩

/-- Reset observations where only the trunk-branch condition
(`_check_significant_project_change`: current branch is `main`) holds. -/
def obs_main_branch : ResetObs := ⟨false, false, false, true, false⟩

/-- Reset observations where only the fifth, error-resolution condition
(`_check_error_resolution`: the model-output log directory exists) holds. -/
def obs_error_resolution : ResetObs := ⟨false, false, false, false, true⟩

/-- A record with two uses already counted. -/
def record_two_uses : OverrideRecord :=
  { usage_count := 2
    first_used := "t0"
    last_used := "t0"
    auto_unset_count := 0
    usage_history := []
    reset_conditions_met := [] }

/-! ## Helper lemmas -/

/-- Characterisation of the escape-hatch unwind loop: unwinding `n ≤ |s|`
levels keeps `s.drop n`, escapes `s.take n` in order, and emits one hard
reset per escaped context that recorded a `git_commit_before`, top-down. -/
theorem escape_loop_spec (n : Nat) (s : List FocusContext) (hn : n ≤ s.length) :
    escape_loop n s =
      (s.drop n, s.take n,
        ((s.take n).filterMap (fun c => c.git_commit_before)).map VcsEvent.resetHard) := by
  induction n generalizing s with
  | zero => simp [escape_loop]
  | succ m ih =>
    cases s with
    | nil => simp at hn
    | cons top rest =>
      have hm : m ≤ rest.length := Nat.le_of_succ_le_succ hn
      simp only [escape_loop, ih rest hm, List.drop_succ_cons, List.take_succ_cons,
        List.filterMap_cons]
      cases hgc : top.git_commit_before <;> simp

/-- `run_all` is the pointwise application of the per-hook status: every
discovered hook contributes exactly one entry, in order, independent of the
the outcomes of the other hooks. -/
theorem run_all_eq_map (hooks : List Hook) (ev : String) :
    run_all hooks ev = hooks.map (fun h => (h.name, hook_status ev h)) := by
  induction hooks with
  | nil => rfl
  | cons h rest ih => simp [run_all, ih]

/-- The character data of an appended string is the appended data. -/
theorem str_data_append (a b : String) : (a ++ b).data = a.data ++ b.data := by
  cases a; cases b; rfl

/-- The auto-unset warning is never the empty string. -/
theorem auto_unset_warning_ne_empty (ty : String) (n : Nat) :
    auto_unset_warning ty n ≠ "" := by
  intro h
  have hd : (auto_unset_warning ty n).data = [] := by rw [h]
  simp only [auto_unset_warning, str_data_append, List.append_eq_nil] at hd
  exact absurd hd.1.2 (by decide)

/-! ## Claim theorems -/

/-- C1: pushing a `focus_id` that already occurs in the stack returns
rejected, sets the circular-dependency flag, appends the offending id to
`dependency_chain`, and leaves the sequence `focus_process_stack` itself
unmodified (same entries, hence same depth), with `current_focus` and the
description also untouched. -/
theorem push_duplicate_rejected (persisted : FocusStack) (fid d : String)
    (create_branch auto_commit : Bool) (git_commit : Option String)
    (branch_create_ok : Bool) (now : String)
    (hdup : fid ∈ persisted.focus_process_stack.map (fun p => p.focus_id)) :
    let out := push_focus_process persisted fid d create_branch auto_commit
      git_commit branch_create_ok now
    out.2 = false ∧
    out.1.focus_process_stack = persisted.focus_process_stack ∧
    out.1.circular.detected = true ∧
    out.1.circular.dependency_chain = persisted.circular.dependency_chain ++ [fid] ∧
    out.1.current_focus = persisted.current_focus ∧
    out.1.description = persisted.description := by
  simp [push_focus_process, detect_circular_dependency, hdup]

/-- C1 witness: pushing the id `b`, already on a two-entry stack, is
rejected and mutates only the circular-dependency tracker. -/
theorem push_duplicate_rejected_witness :
    "b" ∈ stack_two_branch.focus_process_stack.map (fun p => p.focus_id) ∧
    ((push_focus_process stack_two_branch "b" "again" true true (some "c9") true "t9").2 = false ∧
     (push_focus_process stack_two_branch "b" "again" true true (some "c9") true "t9").1.focus_process_stack
        = stack_two_branch.focus_process_stack ∧
     (push_focus_process stack_two_branch "b" "again" true true (some "c9") true "t9").1.circular.detected = true ∧
     (push_focus_process stack_two_branch "b" "again" true true (some "c9") true "t9").1.circular.dependency_chain
        = stack_two_branch.circular.dependency_chain ++ ["b"] ∧
     (push_focus_process stack_two_branch "b" "again" true true (some "c9") true "t9").1.current_focus
        = stack_two_branch.current_focus ∧
     (push_focus_process stack_two_branch "b" "again" true true (some "c9") true "t9").1.description
        = stack_two_branch.description) :=
  ⟨by decide,
   push_duplicate_rejected stack_two_branch "b" "again" true true (some "c9") true "t9" (by decide)⟩

/-- C7: when branch isolation is requested and the git branch creation
fails, `push_focus_process` returns failure with the persisted stack
entirely unchanged — no new entry, `current_focus` untouched. -/
theorem push_branch_failure_atomic (persisted : FocusStack) (fid d : String)
    (auto_commit : Bool) (git_commit : Option String) (now : String)
    (hnodup : fid ∉ persisted.focus_process_stack.map (fun p => p.focus_id)) :
    push_focus_process persisted fid d true auto_commit git_commit false now
      = (persisted, false) := by
  simp [push_focus_process, detect_circular_dependency, hnodup]

/-- C7 witness: a failed branch creation leaves the two-entry stack exactly
as it was and reports failure. -/
theorem push_branch_failure_atomic_witness :
    "c" ∉ stack_two_branch.focus_process_stack.map (fun p => p.focus_id) ∧
    push_focus_process stack_two_branch "c" "new work" true true (some "c9") false "t9"
      = (stack_two_branch, false) :=
  ⟨by decide,
   push_branch_failure_atomic stack_two_branch "c" "new work" true (some "c9") "t9" (by decide)⟩

/-- C3: when the top context is branch-isolated and its completion merge
fails, `pop_focus_process` without `force_escape` returns failure and the
persisted stack is exactly the pre-pop one: the popped entry is re-added in
memory and `save_focus_stack` is never reached, so the new stack is only
persisted after the merge side effects have succeeded. -/
theorem pop_merge_failure_preserves_stack (persisted : FocusStack)
    (top : FocusContext) (rest : List FocusContext) (merge_strategy : String)
    (switch_ok merge_ok : Bool)
    (hstack : persisted.focus_process_stack = top :: rest)
    (hbranch : top.branch_name.isSome = true)
    (hfail : (complete_focus_with_merge persisted top merge_strategy switch_ok merge_ok).1 = false) :
    pop_focus_process persisted false merge_strategy switch_ok merge_ok
      = (persisted, false,
         (complete_focus_with_merge persisted top merge_strategy switch_ok merge_ok).2) := by
  simp only [pop_focus_process, hstack, Bool.not_false, Bool.true_and, hbranch, if_true]
  simp [hfail]

/-- C3 witness: on the branch-isolated two-entry stack, a failing merge
subprocess makes the pop fail and leaves the persisted stack untouched. -/
theorem pop_merge_failure_preserves_stack_witness :
    stack_two_branch.focus_process_stack = ctx_top :: [ctx_base_branch] ∧
    ctx_top.branch_name.isSome = true ∧
    (complete_focus_with_merge stack_two_branch ctx_top "auto" true false).1 = false ∧
    pop_focus_process stack_two_branch false "auto" true false
      = (stack_two_branch, false,
         (complete_focus_with_merge stack_two_branch ctx_top "auto" true false).2) :=
  ⟨by decide, by decide, by decide,
   pop_merge_failure_preserves_stack stack_two_branch ctx_top [ctx_base_branch]
     "auto" true false (by decide) (by decide) (by decide)⟩

/-- C6: with merge strategy `auto`, the completion of a branch-isolated
context attempts a squash merge exactly when its `commit_history` has at
most 3 entries, and a regular merge exactly otherwise. -/
theorem auto_merge_squash_iff (persisted : FocusStack) (focus : FocusContext)
    (fb tb : String) (merge_ok : Bool)
    (hb : focus.branch_name = some fb)
    (ht : merge_target_branch persisted = some tb) :
    let out := complete_focus_with_merge persisted focus "auto" true merge_ok
    (VcsEvent.squashMerge fb ∈ out.2 ↔ focus.commit_history.length ≤ 3) ∧
    (VcsEvent.mergeBranch fb ∈ out.2 ↔ ¬ focus.commit_history.length ≤ 3) := by
  by_cases hlen : focus.commit_history.length ≤ 3 <;>
    cases merge_ok <;>
      simp [complete_focus_with_merge, hb, ht, hlen]

/-- C6 witness: with an empty commit history the auto strategy squash-merges
(and does not regular-merge) the focus branch. -/
theorem auto_merge_squash_iff_witness :
    ctx_top.branch_name = some "focus/b" ∧
    merge_target_branch stack_two_branch = some "focus/a" ∧
    ((VcsEvent.squashMerge "focus/b" ∈
        (complete_focus_with_merge stack_two_branch ctx_top "auto" true true).2 ↔
        ctx_top.commit_history.length ≤ 3) ∧
     (VcsEvent.mergeBranch "focus/b" ∈
        (complete_focus_with_merge stack_two_branch ctx_top "auto" true true).2 ↔
        ¬ ctx_top.commit_history.length ≤ 3)) :=
  ⟨by decide, by decide,
   auto_merge_squash_iff stack_two_branch ctx_top "focus/b" "focus/a" true
     (by decide) (by decide)⟩

/-- C5: after every successful push, pop, or escape operation the persisted
stack satisfies the invariant: `current_focus` is the `focus_id` of the top
entry of `focus_process_stack`, or none when the stack is empty. -/
theorem stack_invariant_after_operations :
    (∀ (p : FocusStack) (fid d : String) (cb ac : Bool) (gc : Option String)
        (bok : Bool) (now : String),
      (push_focus_process p fid d cb ac gc bok now).2 = true →
      stack_inv (push_focus_process p fid d cb ac gc bok now).1) ∧
    (∀ (p : FocusStack) (fe : Bool) (ms : String) (sw mg : Bool),
      (pop_focus_process p fe ms sw mg).2.1 = true →
      stack_inv (pop_focus_process p fe ms sw mg).1) ∧
    (∀ (p : FocusStack) (r : String) (lv : Int) (uj : Bool) (rc : Option Int)
        (pc : Option String) (now : String),
      (trigger_escape_hatch p r lv uj rc pc now).2.1 = true →
      stack_inv (trigger_escape_hatch p r lv uj rc pc now).1) := by
  refine ⟨?_, ?_, ?_⟩
  · intro p fid d cb ac gc bok now hsucc
    by_cases hdet : detect_circular_dependency p fid
    · simp [push_focus_process, hdet] at hsucc
    · by_cases hbc : (cb && !bok)
      · simp [push_focus_process, hdet, hbc] at hsucc
      · simp [push_focus_process, hdet, hbc, stack_inv]
  · intro p fe ms sw mg hsucc
    rcases hs : p.focus_process_stack with _ | ⟨top, rest⟩
    · simp [pop_focus_process, hs] at hsucc
    · by_cases hm : ((if fe = false ∧ top.branch_name.isSome = true then
          complete_focus_with_merge p top ms sw mg else (true, [])).1 = false)
      · simp [pop_focus_process, hs, hm] at hsucc
      · cases rest with
        | nil => simp [pop_focus_process, hs, hm, stack_inv]
        | cons parent rest2 => simp [pop_focus_process, hs, hm, stack_inv]
  · intro p r lv uj rc pc now hsucc
    rcases hs : p.focus_process_stack with _ | ⟨top, rest⟩
    · simp [trigger_escape_hatch, hs] at hsucc
    · simp only [trigger_escape_hatch, hs]
      split <;> simp_all [stack_inv]

/-- C5 witness: the invariant holds concretely after a successful push onto
the empty stack, after a successful forced pop, and after a successful
one-level escape. -/
theorem stack_invariant_after_operations_witness :
    ((push_focus_process create_empty_stack "a" "d" false true none true "t").2 = true ∧
      stack_inv (push_focus_process create_empty_stack "a" "d" false true none true "t").1) ∧
    ((pop_focus_process stack_two_branch true "auto" true true).2.1 = true ∧
      stack_inv (pop_focus_process stack_two_branch true "auto" true true).1) ∧
    ((trigger_escape_hatch stack_two_branch "stuck" 1 false none none "t9").2.1 = true ∧
      stack_inv (trigger_escape_hatch stack_two_branch "stuck" 1 false none none "t9").1) :=
  ⟨⟨by decide,
    stack_invariant_after_operations.1 create_empty_stack "a" "d" false true none true "t" (by decide)⟩,
   ⟨by decide,
    stack_invariant_after_operations.2.1 stack_two_branch true "auto" true true (by decide)⟩,
   ⟨by decide,
    stack_invariant_after_operations.2.2 stack_two_branch "stuck" 1 false none none "t9" (by decide)⟩⟩

/-- C4 counterexample: escaping one level of a two-entry stack whose new top
context has no recorded branch performs NO branch switch at all (the trace
is empty: the escaped context recorded no pre-push commit and the new top
has `branch_name = None`), even though the stack is not empty afterwards —
refuting the claim that it afterwards switches to the branch of the new top
context, or to trunk if the stack is now empty, as universally stated. -/
theorem escape_no_switch_counterexample :
    (trigger_escape_hatch stack_two_nobranch "stuck" 1 false none none "t9").2.1 = true ∧
    (trigger_escape_hatch stack_two_nobranch "stuck" 1 false none none "t9").1.focus_process_stack
      = [ctx_base_nobranch] ∧
    (trigger_escape_hatch stack_two_nobranch "stuck" 1 false none none "t9").2.2
      = [VcsEvent.resetHard "c1"] := by
  decide

/-- C4 (amended): for every non-empty stack and every levels argument, with
the LLM escape recommendation disabled, `trigger_escape_hatch` succeeds,
removes `min(levels, depth)` contexts from the top down — all of them when
`levels ≤ 0` — emitting a hard reset to the recorded
`git_commit_before` of each removed context when present, and afterwards
switches to the branch of the new top context when it has a recorded
branch name (performing
no switch when it has none), or to `main` when the stack is now empty. -/
theorem trigger_escape_hatch_unwind (p : FocusStack) (reason : String)
    (levels : Int) (rc : Option Int) (pc : Option String) (now : String)
    (hne : p.focus_process_stack ≠ []) :
    let n := if levels ≤ 0 then p.focus_process_stack.length
      else min levels.toNat p.focus_process_stack.length
    let out := trigger_escape_hatch p reason levels false rc pc now
    out.2.1 = true ∧
    out.1.focus_process_stack = p.focus_process_stack.drop n ∧
    out.2.2 =
      ((p.focus_process_stack.take n).filterMap (fun c => c.git_commit_before)).map
          VcsEvent.resetHard
        ++ (match (p.focus_process_stack.drop n).head? with
            | none => [VcsEvent.switchBranch "main"]
            | some top =>
              match top.branch_name with
              | some b => [VcsEvent.switchBranch b]
              | none => []) := by
  rcases hs : p.focus_process_stack with _ | ⟨top, rest⟩
  · exact absurd hs hne
  · have hn : (if levels ≤ 0 then (top :: rest).length
        else min levels.toNat (top :: rest).length) ≤ (top :: rest).length := by
      split
      · exact Nat.le_refl _
      · exact Nat.min_le_right _ _
    simp only [trigger_escape_hatch, hs, Bool.false_and, if_neg (by simp : ¬(false = true)),
      escape_loop_spec _ _ hn]
    rcases hdrop : (top :: rest).drop (if levels ≤ 0 then (top :: rest).length
        else min levels.toNat (top :: rest).length) with _ | ⟨newtop, rest2⟩
    · simp [hdrop]
    · rcases hb : newtop.branch_name with _ | b <;> simp [hdrop, hb]

/-- C4 witness: a two-level escape of the branch-isolated two-entry stack
resets to both recorded commits top-down, empties the stack, and switches
back to `main`. -/
theorem trigger_escape_hatch_unwind_witness :
    stack_two_branch.focus_process_stack ≠ [] ∧
    ((trigger_escape_hatch stack_two_branch "abort" 2 false none none "t9").2.1 = true ∧
     (trigger_escape_hatch stack_two_branch "abort" 2 false none none "t9").1.focus_process_stack
       = stack_two_branch.focus_process_stack.drop 2 ∧
     (trigger_escape_hatch stack_two_branch "abort" 2 false none none "t9").2.2
       = ((stack_two_branch.focus_process_stack.take 2).filterMap
            (fun c => c.git_commit_before)).map VcsEvent.resetHard
         ++ [VcsEvent.switchBranch "main"]) := by
  refine ⟨by decide, ?_⟩
  have h := trigger_escape_hatch_unwind stack_two_branch "abort" 2 none none "t9" (by decide)
  exact h

/-- First of three consecutive tracker calls made while the repository sits
on the `main` branch (so `_check_significant_project_change` holds) with the
bypass signal continuously active. -/
def main_branch_call_1 : TrackResult :=
  track_override_usage none "emoji_check" "git_guard" "true" "" obs_main_branch "t1"

/-- Second consecutive call under the same conditions. -/
def main_branch_call_2 : TrackResult :=
  track_override_usage (some main_branch_call_1.record) "emoji_check" "git_guard"
    "true" "" obs_main_branch "t2"

/-- Third consecutive call under the same conditions. -/
def main_branch_call_3 : TrackResult :=
  track_override_usage (some main_branch_call_2.record) "emoji_check" "git_guard"
    "true" "" obs_main_branch "t3"

/-- C2 counterexample: with the bypass signal continuously active
(`KAIA_GUARDRAILS_OVERRIDE=true` on all three calls) but the repository on
the `main` branch, the trunk-branch logical reset fires on every call, so
the third call does NOT force a revoke: the environment is not cleared,
`auto_unset_count` stays 0, and the counter ends at 1 — refuting the claim
that three consecutive active calls always force the revoke. -/
theorem override_ceiling_counterexample :
    override_active "emoji_check" "true" "" = true ∧
    main_branch_call_3.env_cleared = false ∧
    main_branch_call_3.record.auto_unset_count = 0 ∧
    main_branch_call_3.record.usage_count = 1 := by
  decide

/-- C2 (amended): three consecutive `track_override_usage` calls with the
bypass signal continuously active, during which no logical reset condition
fires, force the automatic revoke on the third call — the bypass environment
variables are cleared, `usage_count` resets to 0, `auto_unset_count`
increments, and a non-empty human-readable warning is returned; moreover
(unconditionally) the stored `usage_count` never exceeds 2 after any call,
so it never exceeds the ceiling 3 before a revoke occurs. -/
theorem override_ceiling_revoke :
    (∀ (r : OverrideRecord) (ty hook eo ee t1 t2 t3 : String)
        (obs1 obs2 obs3 : ResetObs),
      r.usage_count = 0 →
      override_active ty eo ee = true →
      check_logical_reset_conditions obs1 = none →
      check_logical_reset_conditions obs2 = none →
      check_logical_reset_conditions obs3 = none →
      let s1 := track_override_usage (some r) ty hook eo ee obs1 t1
      let s2 := track_override_usage (some s1.record) ty hook eo ee obs2 t2
      let s3 := track_override_usage (some s2.record) ty hook eo ee obs3 t3
      s1.env_cleared = false ∧ s1.record.usage_count = 1 ∧
      s2.env_cleared = false ∧ s2.record.usage_count = 2 ∧
      s3.env_cleared = true ∧ s3.record.usage_count = 0 ∧
      s3.record.auto_unset_count = r.auto_unset_count + 1 ∧
      s3.message ≠ "") ∧
    (∀ (ex : Option OverrideRecord) (ty hook eo ee : String) (obs : ResetObs)
        (now : String),
      (ex.getD (init_override_record now)).usage_count ≤ 2 →
      (track_override_usage ex ty hook eo ee obs now).record.usage_count ≤ 2) := by
  constructor
  · intro r ty hook eo ee t1 t2 t3 obs1 obs2 obs3 hr0 hact hobs1 hobs2 hobs3
    simp [track_override_usage, hobs1, hobs2, hobs3, hact, hr0,
      auto_unset_warning_ne_empty]
  · intro ex ty hook eo ee obs now hle
    rcases hchk : check_logical_reset_conditions obs with _ | reason <;>
      by_cases hact : override_active ty eo ee = true <;>
        simp [track_override_usage, hchk, hact] <;>
          split <;> simp_all <;> omega

/-- C2 witness: starting from a fresh record with the override environment
variable set, three calls with no reset condition firing revoke on the
third. -/
theorem override_ceiling_revoke_witness :
    ((init_override_record "t0").usage_count = 0 ∧
     override_active "emoji_check" "true" "" = true ∧
     check_logical_reset_conditions obs_none = none ∧
     (let s1 := track_override_usage (some (init_override_record "t0"))
        "emoji_check" "git_guard" "true" "" obs_none "t1"
      let s2 := track_override_usage (some s1.record)
        "emoji_check" "git_guard" "true" "" obs_none "t2"
      let s3 := track_override_usage (some s2.record)
        "emoji_check" "git_guard" "true" "" obs_none "t3"
      s1.env_cleared = false ∧ s1.record.usage_count = 1 ∧
      s2.env_cleared = false ∧ s2.record.usage_count = 2 ∧
      s3.env_cleared = true ∧ s3.record.usage_count = 0 ∧
      s3.record.auto_unset_count = (init_override_record "t0").auto_unset_count + 1 ∧
      s3.message ≠ "")) ∧
    (((some record_two_uses).getD (init_override_record "t4")).usage_count ≤ 2) ∧
    (track_override_usage (some record_two_uses) "emoji_check" "git_guard"
        "true" "" obs_none "t4").record.usage_count ≤ 2 :=
  ⟨⟨by decide, by decide, by decide,
    override_ceiling_revoke.1 (init_override_record "t0") "emoji_check" "git_guard"
      "true" "" "t1" "t2" "t3" obs_none obs_none obs_none
      (by decide) (by decide) (by decide) (by decide) (by decide)⟩,
   by decide,
   override_ceiling_revoke.2 (some record_two_uses) "emoji_check" "git_guard"
     "true" "" obs_none "t4" (by decide)⟩

/-- C8 counterexample: with all four listed conditions false but the
model-output log directory present (`_check_error_resolution`), the reset
check still fires, with the unlisted reason `error_resolution_detected`,
and resets a counter that stood at 2 (the subsequent increment leaves it at
1 instead of 3) — refuting "exactly the four listed logical reset
conditions ... no other condition can reset the counter at this point". -/
theorem logical_reset_fifth_condition_counterexample :
    check_logical_reset_conditions obs_error_resolution
      = some "error_resolution_detected" ∧
    "error_resolution_detected" ∉
      ["24_hour_timeout", "focus_process_completed",
       "semantic_escape_triggered", "project_state_changed"] ∧
    (track_override_usage (some record_two_uses) "emoji_check" "git_guard"
        "true" "" obs_error_resolution "t5").record.usage_count = 1 ∧
    (track_override_usage (some record_two_uses) "emoji_check" "git_guard"
        "true" "" obs_error_resolution "t5").record.reset_conditions_met
      = [{ timestamp := "t5", reason := "error_resolution_detected" }] := by
  decide

/-- C8 (amended): before the counter is incremented, FIVE logical reset
conditions are evaluated in the fixed order of the source — the 24-hour window,
recent focus completion, recent semantic escape, trunk-branch change, and a
fifth, error-resolution detection — and the first one that matches resets
the counter to 0 and appends its reason to the reset-events list of the record
(`reset_conditions_met`); when none of the five matches, no reset event is
recorded at this point. -/
theorem logical_reset_first_match (obs : ResetObs) (ex : Option OverrideRecord)
    (ty hook eo ee now : String) :
    (obs.timeout24h = true →
      check_logical_reset_conditions obs = some "24_hour_timeout") ∧
    (obs.timeout24h = false → obs.focus_completed = true →
      check_logical_reset_conditions obs = some "focus_process_completed") ∧
    (obs.timeout24h = false → obs.focus_completed = false →
      obs.semantic_escape = true →
      check_logical_reset_conditions obs = some "semantic_escape_triggered") ∧
    (obs.timeout24h = false → obs.focus_completed = false →
      obs.semantic_escape = false → obs.project_changed = true →
      check_logical_reset_conditions obs = some "project_state_changed") ∧
    (obs.timeout24h = false → obs.focus_completed = false →
      obs.semantic_escape = false → obs.project_changed = false →
      obs.error_resolution = true →
      check_logical_reset_conditions obs = some "error_resolution_detected") ∧
    (obs.timeout24h = false → obs.focus_completed = false →
      obs.semantic_escape = false → obs.project_changed = false →
      obs.error_resolution = false →
      check_logical_reset_conditions obs = none) ∧
    (∀ reason, check_logical_reset_conditions obs = some reason →
      (track_override_usage ex ty hook eo ee obs now).record.reset_conditions_met
        = (ex.getD (init_override_record now)).reset_conditions_met
            ++ [{ timestamp := now, reason := reason }] ∧
      (track_override_usage ex ty hook eo ee obs now).record.usage_count ≤ 1) ∧
    (check_logical_reset_conditions obs = none →
      override_active ty eo ee = true →
      (track_override_usage ex ty hook eo ee obs now).record.reset_conditions_met
        = (ex.getD (init_override_record now)).reset_conditions_met) := by
  refine ⟨?_, ?_, ?_, ?_, ?_, ?_, ?_, ?_⟩
  · intro h1; simp [check_logical_reset_conditions, h1]
  · intro h1 h2; simp [check_logical_reset_conditions, h1, h2]
  · intro h1 h2 h3; simp [check_logical_reset_conditions, h1, h2, h3]
  · intro h1 h2 h3 h4; simp [check_logical_reset_conditions, h1, h2, h3, h4]
  · intro h1 h2 h3 h4 h5; simp [check_logical_reset_conditions, h1, h2, h3, h4, h5]
  · intro h1 h2 h3 h4 h5; simp [check_logical_reset_conditions, h1, h2, h3, h4, h5]
  · intro reason hchk
    by_cases hact : override_active ty eo ee = true <;>
      simp [track_override_usage, hchk, hact]
  · intro hchk hact
    simp only [track_override_usage, hchk, hact]
    simp
    split <;> simp_all

/-- C8 witness: instantiating the first-match characterisation at the
trunk-branch observation and a record with two uses. -/
theorem logical_reset_first_match_witness :
    (obs_main_branch.timeout24h = false ∧ obs_main_branch.focus_completed = false ∧
     obs_main_branch.semantic_escape = false ∧ obs_main_branch.project_changed = true) ∧
    check_logical_reset_conditions obs_main_branch = some "project_state_changed" ∧
    ((track_override_usage (some record_two_uses) "emoji_check" "git_guard"
        "true" "" obs_main_branch "t6").record.reset_conditions_met
      = record_two_uses.reset_conditions_met
          ++ [{ timestamp := "t6", reason := "project_state_changed" }] ∧
     (track_override_usage (some record_two_uses) "emoji_check" "git_guard"
        "true" "" obs_main_branch "t6").record.usage_count ≤ 1) :=
  ⟨⟨by decide, by decide, by decide, by decide⟩,
   (logical_reset_first_match obs_main_branch (some record_two_uses)
      "emoji_check" "git_guard" "true" "" "t6").2.2.2.1
     (by decide) (by decide) (by decide) (by decide),
   (logical_reset_first_match obs_main_branch (some record_two_uses)
      "emoji_check" "git_guard" "true" "" "t6").2.2.2.2.2.2.1
     "project_state_changed" (by decide)⟩

/-- An enabled hook whose run returns normally. -/
def hook_ok : Hook :=
  { name := "h-ok", enabled := true, events := ["PreToolUse"],
    run := RunOutcome.ok "fine" }

/-- An enabled hook (with no declared events) whose run raises `HookError`. -/
def hook_err : Hook :=
  { name := "h-err", enabled := true, events := [],
    run := RunOutcome.hookError "policy violation" }

/-- An enabled hook whose run raises an unexpected exception. -/
def hook_crash : Hook :=
  { name := "h-crash", enabled := true, events := ["PreToolUse"],
    run := RunOutcome.crash "boom" }

/-- C9: `run_all` produces exactly one status entry per discovered hook, in
order; a hook that runs gets `ok` on normal return, `error` on `HookError`,
`crash` on any other exception; and the result for the hooks after any given
hook is `run_all` of those hooks, independent of the outcome of that hook —
no exception raised by a hook can abort the batch (outcomes are data here, so the loop is
total by construction). -/
theorem run_all_reports_every_hook (hooks : List Hook) (ev : String) :
    run_all hooks ev = hooks.map (fun h => (h.name, hook_status ev h)) ∧
    (run_all hooks ev).length = hooks.length ∧
    (∀ (h : Hook) (rest : List Hook),
      run_all (h :: rest) ev = (h.name, hook_status ev h) :: run_all rest ev) ∧
    (∀ h : Hook, h.enabled = true →
      (h.events = [] ∨ ev = "" ∨ ev ∈ h.events) →
      hook_status ev h = run_outcome_status h.run) ∧
    (∀ r, run_outcome_status (RunOutcome.ok r) = HookStatus.ok r) ∧
    (∀ m, run_outcome_status (RunOutcome.hookError m) = HookStatus.error m) ∧
    (∀ m, run_outcome_status (RunOutcome.crash m) = HookStatus.crash m) := by
  refine ⟨run_all_eq_map hooks ev, ?_, ?_, ?_,
    fun r => rfl, fun m => rfl, fun m => rfl⟩
  · rw [run_all_eq_map]; simp
  · intro h rest; rfl
  · intro h hen hev
    rcases hev with he | he | he <;> simp [hook_status, hen, he]

/-- C9 witness: a batch of an ok hook, a `HookError` hook, and a crashing
hook yields one entry per hook with the matching statuses. -/
theorem run_all_reports_every_hook_witness :
    (hook_crash.enabled = true ∧ "PreToolUse" ∈ hook_crash.events) ∧
    hook_status "PreToolUse" hook_crash = run_outcome_status hook_crash.run ∧
    run_all [hook_ok, hook_err, hook_crash] "PreToolUse"
      = [("h-ok", HookStatus.ok "fine"),
         ("h-err", HookStatus.error "policy violation"),
         ("h-crash", HookStatus.crash "boom")] :=
  ⟨⟨by decide, by decide⟩,
   (run_all_reports_every_hook [hook_ok, hook_err, hook_crash] "PreToolUse").2.2.2.1
     hook_crash (by decide) (Or.inr (Or.inr (by decide))),
   by decide⟩

/-- C10: a hook is never skipped for event mismatch when the current event
is empty (environment variable unset) or its declared events list is empty —
every enabled hook runs, receiving the status of its run outcome — and a
`skipped`-for-event status occurs only when both the current event and the
declared events list are non-empty and the list does not contain the event. -/
theorem event_filter_edge_cases (ev : String) (h : Hook) :
    (h.enabled = true → ev = "" → hook_status ev h = run_outcome_status h.run) ∧
    (h.enabled = true → h.events = [] →
      hook_status ev h = run_outcome_status h.run) ∧
    (hook_status ev h = HookStatus.skippedEvent ev →
      h.events ≠ [] ∧ ev ≠ "" ∧ ev ∉ h.events) ∧
    (∀ rest : List Hook, h.enabled = true → (ev = "" ∨ h.events = []) →
      run_all (h :: rest) ev
        = (h.name, run_outcome_status h.run) :: run_all rest ev) := by
  refine ⟨?_, ?_, ?_, ?_⟩
  · intro hen he; simp [hook_status, hen, he]
  · intro hen he; simp [hook_status, hen, he]
  · intro hsk
    by_cases hen : h.enabled = true
    · simp [hook_status, hen] at hsk
      by_cases hc : (¬h.events = [] → ¬ev = "" → ev ∈ h.events)
      · have hrun := hsk hc
        cases hr : h.run <;> simp [hr, run_outcome_status] at hrun
      · push_neg at hc
        exact hc
    · simp [hook_status, hen] at hsk
  · intro rest hen hev
    rcases hev with he | he <;> simp [run_all, hook_status, hen, he]

/-- C10 witness: with an empty current event, a hook declaring events still
runs; with a declared-events hook and a non-matching non-empty event, the
hook is skipped for the event. -/
theorem event_filter_edge_cases_witness :
    (hook_ok.enabled = true ∧
     hook_status "" hook_ok = run_outcome_status hook_ok.run) ∧
    (hook_err.enabled = true ∧
     hook_status "PostToolUse" hook_err = run_outcome_status hook_err.run) ∧
    run_all [hook_ok] "" = [("h-ok", HookStatus.ok "fine")] :=
  ⟨⟨by decide, (event_filter_edge_cases "" hook_ok).1 (by decide) (by decide)⟩,
   ⟨by decide, (event_filter_edge_cases "PostToolUse" hook_err).2.1 (by decide) (by decide)⟩,
   by decide⟩

end KaiaGuardrails
